import Mathlib

/-!
Verification of the price_detect streaming/trading core against its design
specification.  The Python sources are shallowly embedded: float arithmetic
becomes exact rational arithmetic over `ℚ`, `datetime` values become rational
timestamps measured in seconds, and Python `dict`/`deque` state becomes
explicit lists and association lists.  Each embedded definition mirrors one
function of the repository; the names follow the source.
-/

/-- Model of `src/models.py` `PricePoint`: one entry of a symbol's price ring. -/
structure PricePoint where
  price : ℚ
  volume : ℚ
  timestamp : ℚ
  deriving DecidableEq, Repr

/-- Model of the fields of `src/price_tracker.py` `SymbolTracker` that the
verified operations read: the three history rings and the cached latest
scalars. -/
structure SymbolTracker where
  price_history : List PricePoint
  oi_history : List (ℚ × ℚ)
  spot_price_history : List (ℚ × ℚ)
  latest_price : ℚ := 0
  latest_volume : ℚ := 0
  latest_oi : ℚ := 0
  deriving DecidableEq, Repr

/-- Python `lst[-n:]` for `n ≥ 1` takes the last `min n (length lst)`
elements; `lst[-0:]` is the whole list. -/
def pyTakeLast (n : Nat) (l : List α) : List α :=
  if n = 0 then l else l.drop (l.length - n)

/-- Model of `PriceTracker.get_volume_ratio` (src/price_tracker.py lines
169–193) applied to one symbol's tracker state.  `volume_periods` is the
constructor parameter of `PriceTracker`. -/
def get_volume_ratio (volume_periods : Nat) (t : SymbolTracker) : Option ℚ :=
  if t.price_history.length < volume_periods then none
  else
    let recent := pyTakeLast volume_periods t.price_history
    let volumes := recent.dropLast.map (·.volume)
    if volumes.isEmpty ∨ volumes.sum = 0 then none
    else
      let avg_volume := volumes.sum / (volumes.length : ℚ)
      if avg_volume = 0 then none
      else some (t.latest_volume / avg_volume)

/-- Model of `PriceTracker.cleanup_old_data` (src/price_tracker.py lines
403–426) applied to one symbol's tracker: pop entries older than
`now - max_age` from the FRONT of the price ring and of the OI ring.  The
source touches no other field (in particular not `spot_price_history`). -/
def cleanup_old_data (now max_age : ℚ) (t : SymbolTracker) : SymbolTracker :=
  let cutoff := now - max_age
  { t with
    price_history := t.price_history.dropWhile (fun p => p.timestamp < cutoff)
    oi_history := t.oi_history.dropWhile (fun p => p.1 < cutoff) }

/-- Model of `src/config_manager.py` `VolumeTierConfig`: one tier of
thresholds; the tier's string label is modelled as a numeric identifier. -/
structure VolumeTierConfig where
  min_quote_volume : ℚ
  price_threshold : ℚ
  volume_threshold : ℚ := 3
  oi_threshold : ℚ := 5
  spread_threshold : ℚ := 3/10
  label : Nat
  deriving DecidableEq, Repr

/-- Model of `AlertEngine._get_tier` (src/alert_engine.py lines 57–70):
walk `self._tiers` (sorted descending by `min_quote_volume` in `__init__`)
and return the first tier whose floor the value reaches. -/
def get_tier (tiers : List VolumeTierConfig) (oi_value : ℚ) : Option VolumeTierConfig :=
  tiers.find? (fun t => t.min_quote_volume ≤ oi_value)

/-- Model of `PriceTracker.get_oi_value` (src/price_tracker.py lines
381–397): position value = latest price × latest open interest, 0 when
either is missing. -/
def get_oi_value (t : SymbolTracker) : ℚ :=
  if 0 < t.latest_price ∧ 0 < t.latest_oi then t.latest_price * t.latest_oi else 0

/-- The fake-signal fields of `src/ml/risk_filter.py` `RiskConfig`. -/
structure FakeSignalConfig where
  fake_signal_window : ℚ := 30
  fake_signal_revert_ratio : ℚ := 4/5
  fake_signal_min_change : ℚ := 1
  deriving DecidableEq, Repr

/-- The two reason strings `_check_fake_signal` can produce. -/
inductive FakeKind where
  | rush_high_fall
  | crash_rebound
  deriving DecidableEq, Repr

/-- Maximum of a Python list via `max(prices)`: the fold below equals the
true maximum on the nonempty lists the source applies it to. -/
def pyMax (l : List ℚ) : ℚ := l.foldl max (l.headD 0)

/-- Minimum of a Python list via `min(prices)`. -/
def pyMin (l : List ℚ) : ℚ := l.foldl min (l.headD 0)

/-- Model of `RiskFilter._check_fake_signal` (src/ml/risk_filter.py lines
202–258) on one symbol's tracker state; `now` stands for `datetime.now()`.
All comparisons are strict, exactly as in the source. -/
def check_fake_signal (cfg : FakeSignalConfig) (now : ℚ) (t : SymbolTracker) :
    Bool × Option FakeKind :=
  if t.price_history.length < 10 then (false, none)
  else
    let window_start := now - cfg.fake_signal_window
    let window_prices := t.price_history.filter (fun p => window_start ≤ p.timestamp)
    if window_prices.length < 5 then (false, none)
    else
      let start_price := (window_prices.headD ⟨0, 0, 0⟩).price
      let current_price := (window_prices.getLastD ⟨0, 0, 0⟩).price
      let prices := window_prices.map (·.price)
      let high := pyMax prices
      let low := pyMin prices
      if start_price = 0 then (false, none)
      else
        let rise_to_high := (high - start_price) / start_price * 100
        let fall_from_high := if 0 < high then (high - current_price) / high * 100 else 0
        if cfg.fake_signal_min_change < rise_to_high ∧
            cfg.fake_signal_revert_ratio <
              (if 0 < rise_to_high then fall_from_high / rise_to_high else 0) then
          (true, some .rush_high_fall)
        else
          let fall_to_low := (start_price - low) / start_price * 100
          let rise_from_low := if 0 < low then (current_price - low) / low * 100 else 0
          if cfg.fake_signal_min_change < fall_to_low ∧
              cfg.fake_signal_revert_ratio <
                (if 0 < fall_to_low then rise_from_low / fall_to_low else 0) then
            (true, some .crash_rebound)
          else (false, none)

/-- Restatement of the specification's fake-signal sentence, with the strict
comparisons the source actually uses: over the window's prices, either leg
exceeds `fakeSignalMinChange` and the corresponding reverse ratio exceeds
`fakeSignalRevertRatio`.  Written from the spec's words, for comparison with
`check_fake_signal`. -/
def fake_signal_spec_strict (cfg : FakeSignalConfig) (now : ℚ) (t : SymbolTracker) : Prop :=
  let window_prices := t.price_history.filter
    (fun p => now - cfg.fake_signal_window ≤ p.timestamp)
  let start_price := (window_prices.headD ⟨0, 0, 0⟩).price
  let current_price := (window_prices.getLastD ⟨0, 0, 0⟩).price
  let high := pyMax (window_prices.map (·.price))
  let low := pyMin (window_prices.map (·.price))
  let rise_to_high := (high - start_price) / start_price * 100
  let fall_from_high := (high - current_price) / high * 100
  let fall_to_low := (start_price - low) / start_price * 100
  let rise_from_low := (current_price - low) / low * 100
  (cfg.fake_signal_min_change < rise_to_high ∧
    cfg.fake_signal_revert_ratio < fall_from_high / rise_to_high) ∨
  (cfg.fake_signal_min_change < fall_to_low ∧
    cfg.fake_signal_revert_ratio < rise_from_low / fall_to_low)

/-- The claim's reading of the fake-signal rule, with non-strict (≥)
comparisons.  Written from the spec's words, for comparison with
`check_fake_signal`. -/
def fake_signal_spec_ge (cfg : FakeSignalConfig) (now : ℚ) (t : SymbolTracker) : Prop :=
  let window_prices := t.price_history.filter
    (fun p => now - cfg.fake_signal_window ≤ p.timestamp)
  let start_price := (window_prices.headD ⟨0, 0, 0⟩).price
  let current_price := (window_prices.getLastD ⟨0, 0, 0⟩).price
  let high := pyMax (window_prices.map (·.price))
  let low := pyMin (window_prices.map (·.price))
  let rise_to_high := (high - start_price) / start_price * 100
  let fall_from_high := (high - current_price) / high * 100
  let fall_to_low := (start_price - low) / start_price * 100
  let rise_from_low := (current_price - low) / low * 100
  (cfg.fake_signal_min_change ≤ rise_to_high ∧
    cfg.fake_signal_revert_ratio ≤ fall_from_high / rise_to_high) ∨
  (cfg.fake_signal_min_change ≤ fall_to_low ∧
    cfg.fake_signal_revert_ratio ≤ rise_from_low / fall_to_low)

/-- Model of `src/models.py` `RiskCheckResult`: the flags read by
`should_filter` / `get_filter_reasons`. -/
structure RiskCheckResult where
  is_fake_signal : Bool := false
  ws_latency_ms : ℚ := 0
  spread_too_wide : Bool := false
  depth_too_thin : Bool := false
  wall_manipulation : Bool := false
  volume_manipulation : Bool := false
  deriving DecidableEq, Repr

/-- The reason tags of `RiskCheckResult.get_filter_reasons`. -/
inductive FilterReason where
  | fake_signal
  | latency_too_high
  | spread_too_wide
  | depth_too_thin
  | wall_manipulation
  | volume_manipulation
  deriving DecidableEq, Repr

/-- Model of `RiskCheckResult.get_filter_reasons` (src/models.py lines
549–564). -/
def get_filter_reasons (r : RiskCheckResult) : List FilterReason :=
  (if r.is_fake_signal then [FilterReason.fake_signal] else []) ++
  (if 500 < r.ws_latency_ms then [FilterReason.latency_too_high] else []) ++
  (if r.spread_too_wide then [FilterReason.spread_too_wide] else []) ++
  (if r.depth_too_thin then [FilterReason.depth_too_thin] else []) ++
  (if r.wall_manipulation then [FilterReason.wall_manipulation] else []) ++
  (if r.volume_manipulation then [FilterReason.volume_manipulation] else [])

/-- Model of `RiskFilter.should_filter_alert` (src/ml/risk_filter.py lines
339–356): nothing is filtered when `filter_alerts` is off, otherwise filter
exactly when some reason exists. -/
def should_filter_alert (filter_alerts : Bool) (r : RiskCheckResult) : Bool :=
  if !filter_alerts then false
  else !(get_filter_reasons r).isEmpty

/-- Outcome of the `try` block of `AlertEngine._check_risk_filter`: either
the risk check ran to completion and produced a `RiskCheckResult`, or some
step raised an exception. -/
inductive RiskOutcome where
  | completed (r : RiskCheckResult)
  | raised
  deriving DecidableEq, Repr

/-- Model of `AlertEngine._check_risk_filter` (src/alert_engine.py lines
414–449): `none` is an engine with no risk filter configured, `some o` the
outcome of running the configured filter.  Returns true when the alert
should be sent. -/
def check_risk_filter (filter_alerts : Bool) (rf : Option RiskOutcome) : Bool :=
  match rf with
  | none => true
  | some .raised => true
  | some (.completed r) => if should_filter_alert filter_alerts r then false else true

/-- Model of the delivery loop of `AlertEngine.check_all` (src/alert_engine.py
lines 397–412): each triggered event, paired with the risk-filter outcome its
check produced, reaches `on_alert` iff `_check_risk_filter` said to send. -/
def check_all_delivered (filter_alerts : Bool) (events : List (α × Option RiskOutcome)) :
    List α :=
  (events.filter (fun e => check_risk_filter filter_alerts e.2)).map (·.1)

/-- Model of `src/orderbook_monitor.py` `OrderBookConfig`, with its default
values. -/
structure OrderBookConfig where
  enabled : Bool := true
  wall_detection : Bool := true
  wall_value_threshold : ℚ := 500000
  wall_ratio_threshold : ℚ := 3
  wall_distance_max : ℚ := 2
  imbalance_detection : Bool := true
  imbalance_threshold : ℚ := 6/10
  imbalance_depth_levels : Nat := 10
  sweep_detection : Bool := true
  sweep_value_threshold : ℚ := 300000
  cooldown_seconds : ℚ := 300
  deriving DecidableEq, Repr

/-- Order-book side. -/
inductive Side where
  | bid
  | ask
  deriving DecidableEq, Repr

/-- Model of `src/models.py` `OrderBookSnapshot`: bids descending, asks
ascending, each level a `(price, qty)` pair. -/
structure OrderBookSnapshot where
  bids : List (ℚ × ℚ)
  asks : List (ℚ × ℚ)
  timestamp : ℚ := 0
  deriving DecidableEq, Repr

/-- `OrderBookSnapshot.best_bid`. -/
def OrderBookSnapshot.best_bid (s : OrderBookSnapshot) : Option ℚ := s.bids.head?.map (·.1)

/-- `OrderBookSnapshot.best_ask`. -/
def OrderBookSnapshot.best_ask (s : OrderBookSnapshot) : Option ℚ := s.asks.head?.map (·.1)

/-- `OrderBookSnapshot.bid_depth`: summed value of the top `levels` bid
levels. -/
def OrderBookSnapshot.bid_depth (s : OrderBookSnapshot) (levels : Nat) : ℚ :=
  ((s.bids.take levels).map (fun l => l.1 * l.2)).sum

/-- `OrderBookSnapshot.ask_depth`. -/
def OrderBookSnapshot.ask_depth (s : OrderBookSnapshot) (levels : Nat) : ℚ :=
  ((s.asks.take levels).map (fun l => l.1 * l.2)).sum

/-- `OrderBookSnapshot.imbalance_ratio` over `levels` levels, 0 when the book
is empty. -/
def OrderBookSnapshot.imbalance_ratio (s : OrderBookSnapshot) (levels : Nat) : ℚ :=
  let b := s.bid_depth levels
  let a := s.ask_depth levels
  if b + a = 0 then 0 else (b - a) / (b + a)

/-- Model of `src/orderbook_monitor.py` `WallState` (the seen-at datetimes are
never read by the verified paths and are omitted). -/
structure WallState where
  price : ℚ
  quantity : ℚ
  value : ℚ
  side : Side
  deriving DecidableEq, Repr

/-- The composite cooldown keys `f"wall_{side}"`, `"imbalance_bid"/"_ask"` and
`f"sweep_{side}"` used by `OrderBookMonitor`. -/
inductive OBCooldownKey where
  | wall (s : Side)
  | imbalance (s : Side)
  | sweep (s : Side)
  deriving DecidableEq, Repr

/-- The three event-type strings `OrderBookMonitor` emits. -/
inductive OBEventType where
  | wall_detected
  | imbalance
  | sweep
  deriving DecidableEq, Repr

/-- Model of `src/models.py` `OrderBookEvent` (the display-only
`extra_info` strings are omitted). -/
structure OrderBookEvent where
  event_type : OBEventType
  side : Side
  price : ℚ := 0
  quantity : ℚ := 0
  value : ℚ := 0
  imbalance_ratio : ℚ := 0
  deriving DecidableEq, Repr

/-- Per-symbol state of `OrderBookMonitor`: the last snapshot, the tracked
walls (a `price → WallState` dict as an insertion-ordered association list),
and the cooldown map.  An absent cooldown entry is `datetime.min`, which is
always past cooldown. -/
structure OrderBookMonitorState where
  prev_snapshot : Option OrderBookSnapshot := none
  tracked_walls : List (ℚ × WallState) := []
  cooldowns : List (OBCooldownKey × ℚ) := []
  deriving DecidableEq, Repr

/-- First-match association lookup (Python dict access on the modelled
maps). -/
def assoc_lookup {α β : Type} [DecidableEq α] (l : List (α × β)) (k : α) : Option β :=
  (l.find? (fun e => e.1 = k)).map (·.2)

/-- `OrderBookMonitor._is_cooled_down`. -/
def ob_is_cooled_down (cfg : OrderBookConfig) (now : ℚ)
    (cd : List (OBCooldownKey × ℚ)) (k : OBCooldownKey) : Bool :=
  match assoc_lookup cd k with
  | none => true
  | some last => cfg.cooldown_seconds < now - last

/-- `OrderBookMonitor._record_cooldown`. -/
def ob_record_cooldown (now : ℚ) (cd : List (OBCooldownKey × ℚ))
    (k : OBCooldownKey) : List (OBCooldownKey × ℚ) :=
  (k, now) :: cd.filter (fun e => e.1 ≠ k)

/-- Python dict insertion: an existing key keeps its slot with the new value,
a new key is appended. -/
def dictInsert (k : ℚ) (v : WallState) (d : List (ℚ × WallState)) :
    List (ℚ × WallState) :=
  if d.any (fun e => e.1 = k) then
    d.map (fun e => if e.1 = k then (k, v) else e)
  else d ++ [(k, v)]

/-- Lookup in a dict built by a Python comprehension over `(price, qty)`
pairs (a duplicate price keeps the last pair), with default 0. -/
def pyDictGetD (l : List (ℚ × ℚ)) (p : ℚ) : ℚ :=
  (assoc_lookup l.reverse p).getD 0

/-- The wall scan of `OrderBookMonitor._detect_walls` over one side's top-20
levels: `distance` is computed by `dist price mid`, and a level is a wall iff
its value passes the absolute threshold and the `ratio × average` threshold. -/
def scan_walls (cfg : OrderBookConfig) (side : Side) (mid_price avg_value : ℚ)
    (levels : List (ℚ × ℚ)) (acc : List (ℚ × WallState)) : List (ℚ × WallState) :=
  (levels.take 20).foldl (fun walls l =>
    let value := l.1 * l.2
    let distance := (match side with
      | .bid => (mid_price - l.1) / mid_price * 100
      | .ask => (l.1 - mid_price) / mid_price * 100)
    if cfg.wall_distance_max < distance then walls
    else if cfg.wall_value_threshold ≤ value ∧ 0 < avg_value ∧
        avg_value * cfg.wall_ratio_threshold ≤ value then
      dictInsert l.1 ⟨l.1, l.2, value, side⟩ walls
    else walls) acc

/-- Model of `OrderBookMonitor._detect_walls` (src/orderbook_monitor.py lines
151–255).  Returns the emitted events, the NEW tracked-wall dict (the source
assigns `self._tracked_walls[symbol] = current_walls` before returning), and
the updated cooldowns. -/
def detect_walls (cfg : OrderBookConfig) (now : ℚ)
    (tracked : List (ℚ × WallState)) (cd : List (OBCooldownKey × ℚ))
    (snapshot : OrderBookSnapshot) :
    List OrderBookEvent × List (ℚ × WallState) × List (OBCooldownKey × ℚ) :=
  match snapshot.best_bid, snapshot.best_ask with
  | some bb, some ba =>
    if bb = 0 ∨ ba = 0 then ([], tracked, cd)  -- Python truthiness: a 0 best quote is falsy
    else
      let mid_price := (bb + ba) / 2
      let bid_values := (snapshot.bids.take 20).map (fun l => l.1 * l.2)
      let ask_values := (snapshot.asks.take 20).map (fun l => l.1 * l.2)
      let avg_bid_value := if bid_values.isEmpty then 0
        else bid_values.sum / (bid_values.length : ℚ)
      let avg_ask_value := if ask_values.isEmpty then 0
        else ask_values.sum / (ask_values.length : ℚ)
      let current_walls :=
        scan_walls cfg .ask mid_price avg_ask_value snapshot.asks
          (scan_walls cfg .bid mid_price avg_bid_value snapshot.bids [])
      let (events, cd') := current_walls.foldl (fun (acc : List OrderBookEvent × _) e =>
        let (events, cd) := acc
        let (price, wall) := e
        if (assoc_lookup tracked price).isNone then
          if ob_is_cooled_down cfg now cd (.wall wall.side) then
            (events ++ [{ event_type := .wall_detected, side := wall.side,
                          price := wall.price, quantity := wall.quantity,
                          value := wall.value }],
              ob_record_cooldown now cd (.wall wall.side))
          else (events, cd)
        else (events, cd)) ([], cd)
      (events, current_walls, cd')
  | _, _ => ([], tracked, cd)

/-- Model of `OrderBookMonitor._detect_imbalance` (src/orderbook_monitor.py
lines 257–307). -/
def detect_imbalance (cfg : OrderBookConfig) (now : ℚ)
    (cd : List (OBCooldownKey × ℚ)) (snapshot : OrderBookSnapshot) :
    Option OrderBookEvent × List (OBCooldownKey × ℚ) :=
  let ratio := snapshot.imbalance_ratio cfg.imbalance_depth_levels
  if |ratio| < cfg.imbalance_threshold then (none, cd)
  else
    let key := if 0 < ratio then OBCooldownKey.imbalance .bid
      else OBCooldownKey.imbalance .ask
    if !ob_is_cooled_down cfg now cd key then (none, cd)
    else
      (some { event_type := .imbalance, side := if 0 < ratio then .bid else .ask,
              imbalance_ratio := ratio },
        ob_record_cooldown now cd key)

/-- Model of `OrderBookMonitor._detect_sweep` (src/orderbook_monitor.py lines
309–367): for each tracked wall whose resting quantity fell below 20% and
whose vanished value passes the threshold, emit a sweep subject to the
per-side cooldown. -/
def detect_sweep (cfg : OrderBookConfig) (now : ℚ)
    (tracked : List (ℚ × WallState)) (cd : List (OBCooldownKey × ℚ))
    (snapshot : OrderBookSnapshot) :
    List OrderBookEvent × List (OBCooldownKey × ℚ) :=
  if tracked.isEmpty then ([], cd)
  else
    tracked.foldl (fun (acc : List OrderBookEvent × _) e =>
      let (events, cd) := acc
      let (price, wall) := e
      let current_qty := (match wall.side with
        | .bid => pyDictGetD snapshot.bids price
        | .ask => pyDictGetD snapshot.asks price)
      if current_qty < wall.quantity * (2/10) then
        let removed_value := wall.value - price * current_qty
        if cfg.sweep_value_threshold ≤ removed_value then
          if ob_is_cooled_down cfg now cd (.sweep wall.side) then
            (events ++ [{ event_type := .sweep, side := wall.side,
                          price := wall.price, value := removed_value }],
              ob_record_cooldown now cd (.sweep wall.side))
          else (events, cd)
        else (events, cd)
      else (events, cd)) ([], cd)

/-- Model of `OrderBookMonitor.process_snapshot` (src/orderbook_monitor.py
lines 100–149) for one symbol: wall detection runs first (and already
replaces the tracked-wall dict), then imbalance, then sweep; finally the last
snapshot is updated. -/
def process_snapshot (cfg : OrderBookConfig) (now : ℚ)
    (st : OrderBookMonitorState) (snapshot : OrderBookSnapshot) :
    List OrderBookEvent × OrderBookMonitorState :=
  if !cfg.enabled then ([], st)
  else
    let prev := st.prev_snapshot
    let (wall_events, tracked1, cd1) :=
      if cfg.wall_detection then detect_walls cfg now st.tracked_walls st.cooldowns snapshot
      else ([], st.tracked_walls, st.cooldowns)
    let (imb_event, cd2) :=
      if cfg.imbalance_detection then detect_imbalance cfg now cd1 snapshot
      else (none, cd1)
    let (sweep_events, cd3) :=
      if cfg.sweep_detection ∧ prev.isSome then detect_sweep cfg now tracked1 cd2 snapshot
      else ([], cd2)
    (wall_events ++ imb_event.toList ++ sweep_events,
      { prev_snapshot := some snapshot, tracked_walls := tracked1, cooldowns := cd3 })

/-- Model of `src/models.py` `MLFeatureVector` restricted to the fields the
label generator reads. -/
structure MLFeatureVector where
  timestamp : ℚ
  price : ℚ
  deriving DecidableEq, Repr

/-- Model of `src/models.py` `MLLabel`. -/
structure MLLabel where
  timestamp : ℚ
  return_1m : ℚ := 0
  return_5m : ℚ := 0
  return_15m : ℚ := 0
  return_30m : ℚ := 0
  direction_5m : Int := 0
  direction_15m : Int := 0
  max_profit_5m : ℚ := 0
  max_drawdown_5m : ℚ := 0
  label_generated_at : ℚ
  deriving DecidableEq, Repr

/-- `LabelGenerator.LABEL_WINDOWS` in seconds. -/
def LABEL_WINDOWS : List ℚ := [60, 300, 900, 1800]

/-- `max(LabelGenerator.LABEL_WINDOWS.values())`. -/
def max_label_window : ℚ := 1800

/-- The scan of `LabelGenerator._get_price_at_time` over the in-memory price
history: the first point at minimal distance to the target. -/
def closest_point (hist : List PricePoint) (target : ℚ) : Option PricePoint :=
  hist.foldl (fun acc p =>
    match acc with
    | none => some p
    | some c => if |p.timestamp - target| < |c.timestamp - target| then some p else some c)
    none

/-- Model of `LabelGenerator._get_price_at_time` (src/ml/label_generator.py
lines 228–255) for a generator constructed with `data_store=None` (the
constructor's default): only points within 5 seconds are accepted. -/
def get_price_at_time (hist : List PricePoint) (target : ℚ) : Option ℚ :=
  match closest_point hist target with
  | some c => if |c.timestamp - target| < 5 then some c.price else none
  | none => none

/-- Model of `LabelGenerator._get_extremes_in_window` (src/ml/label_generator.py
lines 257–297), `data_store=None`. -/
def get_extremes_in_window (hist : List PricePoint) (start_ts end_ts base_price : ℚ) :
    ℚ × ℚ :=
  if base_price = 0 then (0, 0)
  else
    let prices := (hist.filter (fun p => start_ts ≤ p.timestamp ∧ p.timestamp ≤ end_ts)).map
      (·.price)
    if prices.isEmpty then (0, 0)
    else
      let max_profit := (pyMax prices - base_price) / base_price * 100
      let max_drawdown := (base_price - pyMin prices) / base_price * 100
      (max 0 max_profit, max 0 max_drawdown)

/-- The per-window return of `LabelGenerator._compute_label`: a missing or
zero future price (Python truthiness of `future_price`) yields 0. -/
def label_return (hist : List PricePoint) (feature_ts base_price window : ℚ) : ℚ :=
  match get_price_at_time hist (feature_ts + window) with
  | some fp => if fp = 0 then 0 else (fp - base_price) / base_price * 100
  | none => 0

/-- The direction label of `_compute_label`. -/
def label_direction (direction_threshold ret : ℚ) : Int :=
  if direction_threshold < ret then 1
  else if ret < -direction_threshold then -1
  else 0

/-- Model of `LabelGenerator._compute_label` (src/ml/label_generator.py lines
152–226); `now` stands for `datetime.now()`. -/
def compute_label (direction_threshold now : ℚ) (hist : List PricePoint)
    (feature_ts : ℚ) (feature : MLFeatureVector) : Option MLLabel :=
  let base_price := feature.price
  if base_price = 0 then none
  else if now - feature_ts < max_label_window then none
  else
    let r1 := label_return hist feature_ts base_price 60
    let r5 := label_return hist feature_ts base_price 300
    let r15 := label_return hist feature_ts base_price 900
    let r30 := label_return hist feature_ts base_price 1800
    let ext := get_extremes_in_window hist feature_ts (feature_ts + 300) base_price
    some
      { timestamp := feature_ts
        return_1m := r1, return_5m := r5, return_15m := r15, return_30m := r30
        direction_5m := label_direction direction_threshold r5
        direction_15m := label_direction direction_threshold r15
        max_profit_5m := ext.1, max_drawdown_5m := ext.2
        label_generated_at := now }

/-- Model of `LabelGenerator.try_generate_labels` (src/ml/label_generator.py
lines 94–136) for one symbol: entries whose longest window has not elapsed
stay pending in order; the rest are labelled (or dropped when no label can be
computed).  Returns (generated labels, remaining pending queue). -/
def try_generate_labels (direction_threshold now : ℚ) (hist : List PricePoint)
    (pending : List (ℚ × MLFeatureVector)) :
    List MLLabel × List (ℚ × MLFeatureVector) :=
  pending.foldl (fun acc e =>
    let (generated, still_pending) := acc
    let (feature_ts, feature) := e
    if now - feature_ts < max_label_window then
      (generated, still_pending ++ [e])
    else
      match compute_label direction_threshold now hist feature_ts feature with
      | some label => (generated ++ [label], still_pending)
      | none => (generated, still_pending)) ([], [])

/-- Model of `src/ml/trading/models.py` `OrderSide`. -/
inductive OrderSide where
  | long
  | short
  deriving DecidableEq, Repr

/-- Model of `src/ml/trading/models.py` `ExitReason`. -/
inductive ExitReason where
  | take_profit
  | stop_loss
  | trailing_stop
  | time_exit
  | signal_exit
  | liquidation
  | manual
  deriving DecidableEq, Repr

/-- Model of `src/ml/trading/models.py` `Position` (string metadata omitted).
The `__post_init__` highest/lowest fix-up is applied at the construction
sites modelled below. -/
structure Position where
  side : OrderSide
  quantity : ℚ
  entry_price : ℚ
  entry_time : ℚ
  leverage : ℚ := 15
  margin : ℚ := 0
  take_profit_price : Option ℚ := none
  stop_loss_price : Option ℚ := none
  trailing_stop_distance : Option ℚ := none
  max_hold_seconds : ℚ := 900
  current_price : ℚ := 0
  unrealized_pnl : ℚ := 0
  unrealized_pnl_pct : ℚ := 0
  highest_price : ℚ := 0
  lowest_price : ℚ := 0
  deriving DecidableEq, Repr

/-- Model of `src/ml/trading/models.py` `Trade` (string metadata omitted). -/
structure Trade where
  side : OrderSide
  quantity : ℚ
  entry_price : ℚ
  entry_time : ℚ
  exit_price : ℚ
  exit_time : ℚ
  exit_reason : ExitReason
  leverage : ℚ := 15
  realized_pnl : ℚ := 0
  realized_pnl_pct : ℚ := 0
  roi : ℚ := 0
  commission : ℚ := 0
  margin : ℚ := 0
  deriving DecidableEq, Repr

/-- Model of `Trade._calculate_pnl` (src/ml/trading/models.py lines 183–195). -/
def Trade.calculate_pnl (t : Trade) : Trade :=
  let pct := match t.side with
    | .long => (t.exit_price - t.entry_price) / t.entry_price * 100
    | .short => (t.entry_price - t.exit_price) / t.entry_price * 100
  let roi := pct * t.leverage
  let pnl := if 0 < t.margin then t.margin * roi / 100 - t.commission else t.realized_pnl
  { t with realized_pnl_pct := pct, roi := roi, realized_pnl := pnl }

/-- Constructing a `Trade` as `__post_init__` does (src/ml/trading/models.py
lines 173–181): the pnl is derived automatically when the `realized_pnl`
argument is its default 0 and the entry price is positive. -/
def mk_trade (side : OrderSide) (quantity entry_price entry_time exit_price exit_time : ℚ)
    (exit_reason : ExitReason) (leverage commission margin : ℚ) : Trade :=
  let t : Trade :=
    { side, quantity, entry_price, entry_time, exit_price, exit_time, exit_reason,
      leverage, commission, margin }
  if t.realized_pnl = 0 ∧ 0 < t.entry_price then t.calculate_pnl else t

/-- Model of `src/ml/trading/account.py` `AccountConfig`, default values
included (`0.0002 = 1/5000`, `0.0005 = 1/2000`, `0.8 = 4/5`). -/
structure AccountConfig where
  initial_balance : ℚ := 10000
  leverage : ℚ := 15
  maker_fee : ℚ := 1/5000
  taker_fee : ℚ := 1/2000
  max_positions : Nat := 5
  position_risk_pct : ℚ := 2
  max_margin_ratio : ℚ := 4/5
  deriving DecidableEq, Repr

/-- Model of `src/ml/trading/account.py` `VirtualAccount`: the balance and
the open positions (the position dict becomes an insertion-ordered list;
trade/statistics fields do not feed back into these two and are omitted). -/
structure VirtualAccount where
  config : AccountConfig
  balance : ℚ
  positions : List Position
  deriving DecidableEq, Repr

/-- A fresh `VirtualAccount` under the default `AccountConfig`. -/
def fresh_account : VirtualAccount :=
  { config := {}, balance := 10000, positions := [] }

/-- `VirtualAccount.get_equity`. -/
def get_equity (a : VirtualAccount) : ℚ :=
  a.balance + (a.positions.map (·.unrealized_pnl)).sum

/-- `VirtualAccount.get_margin_used`. -/
def get_margin_used (a : VirtualAccount) : ℚ :=
  (a.positions.map (·.margin)).sum

/-- `VirtualAccount.get_available_margin`. -/
def get_available_margin (a : VirtualAccount) : ℚ :=
  a.balance - get_margin_used a

/-- Model of `VirtualAccount.can_open_position` (src/ml/trading/account.py
lines 98–122).  (With `balance = 0` the Python ratio check raises and no
state changes; such states are unreachable in the traces quantified over
below, where the balance stays positive.) -/
def can_open_position (a : VirtualAccount) (margin_required : ℚ) : Bool :=
  if a.config.max_positions ≤ a.positions.length then false
  else if get_available_margin a < margin_required then false
  else if a.config.max_margin_ratio < (get_margin_used a + margin_required) / a.balance then
    false
  else true

/-- Model of `VirtualAccount.calculate_position_size` (src/ml/trading/account.py
lines 124–163) with `risk_pct=None` (the caller's form). -/
def calculate_position_size (a : VirtualAccount) (price stop_loss_pct : ℚ) : ℚ :=
  let risk_pct := a.config.position_risk_pct
  let equity := get_equity a
  let risk_amount := equity * (risk_pct / 100)
  let position_value := risk_amount / (stop_loss_pct / 100) * a.config.leverage
  let margin_required := position_value / a.config.leverage
  let max_margin := get_available_margin a * (1/2)
  let margin_required := min margin_required max_margin
  margin_required * a.config.leverage / price

/-- `VirtualAccount.calculate_margin`. -/
def calculate_margin (a : VirtualAccount) (quantity price : ℚ) : ℚ :=
  quantity * price / a.config.leverage

/-- `VirtualAccount.calculate_commission`. -/
def calculate_commission (a : VirtualAccount) (quantity price : ℚ) (is_maker : Bool) : ℚ :=
  quantity * price * (if is_maker then a.config.maker_fee else a.config.taker_fee)

/-- The stop-loss distance `open_position` computes from the stop price
(default 1.5 when no truthy stop is given). -/
def open_stop_loss_pct (side : OrderSide) (price : ℚ) (stop_loss : Option ℚ) : ℚ :=
  match stop_loss with
  | some s =>
    if s ≠ 0 ∧ 0 < price then  -- Python truthiness of `stop_loss`
      (match side with
        | .long => |price - s| / price * 100
        | .short => |s - price| / price * 100)
    else 3/2
  | none => 3/2

/-- The quantity `open_position` trades: the explicit argument when given,
otherwise the auto-sized one. -/
def open_quantity (a : VirtualAccount) (side : OrderSide) (price : ℚ)
    (quantity? : Option ℚ) (stop_loss : Option ℚ) : ℚ :=
  match quantity? with
  | some q => q
  | none => calculate_position_size a price (open_stop_loss_pct side price stop_loss)

/-- Model of `PositionManager.open_position` (src/ml/trading/position_manager.py
lines 44–149) acting on the account: on the reject paths (computed quantity
≤ 0, `can_open_position` false) nothing changes; otherwise the opening
commission is deducted and the new position appended.  The optional signal
argument only supplies take-profit/stop-loss defaults and is inlined into
`take_profit`/`stop_loss` here. -/
def open_position (a : VirtualAccount) (side : OrderSide) (price : ℚ)
    (quantity? : Option ℚ) (take_profit stop_loss : Option ℚ)
    (trailing_distance : Option ℚ) (max_hold_seconds : ℚ) (timestamp : ℚ) :
    VirtualAccount :=
  let quantity := open_quantity a side price quantity? stop_loss
  if quantity ≤ 0 then a
  else
    let margin := calculate_margin a quantity price
    if !can_open_position a margin then a
    else
      let commission := calculate_commission a quantity price false
      let pos : Position :=
        { side, quantity, entry_price := price, entry_time := timestamp,
          leverage := a.config.leverage, margin,
          take_profit_price := take_profit, stop_loss_price := stop_loss,
          trailing_stop_distance := trailing_distance, max_hold_seconds,
          current_price := price, highest_price := price, lowest_price := price }
      { a with balance := a.balance - commission, positions := a.positions ++ [pos] }

/-- Model of `PositionManager.close_position` (src/ml/trading/position_manager.py
lines 151–214) on the position at index `i`: build the trade (whose pnl is
auto-derived), drop the position, and let `VirtualAccount.record_trade` add
the realized pnl to the balance. -/
def close_position (a : VirtualAccount) (i : Nat) (exit_price : ℚ)
    (exit_reason : ExitReason) (timestamp : ℚ) : VirtualAccount :=
  match a.positions.get? i with
  | none => a
  | some pos =>
    let commission := calculate_commission a pos.quantity exit_price false
    let trade := mk_trade pos.side pos.quantity pos.entry_price pos.entry_time
      exit_price timestamp exit_reason pos.leverage commission pos.margin
    { a with balance := a.balance + trade.realized_pnl,
             positions := a.positions.eraseIdx i }

/-- The account states reachable from a fresh `VirtualAccount` by any
sequence of `PositionManager.open_position` and `close_position` calls. -/
inductive Reachable : VirtualAccount → Prop where
  | init : Reachable fresh_account
  | open_step {a} (side : OrderSide) (price : ℚ) (quantity? : Option ℚ)
      (take_profit stop_loss trailing_distance : Option ℚ)
      (max_hold_seconds timestamp : ℚ) : Reachable a →
      Reachable (open_position a side price quantity? take_profit stop_loss
        trailing_distance max_hold_seconds timestamp)
  | close_step {a} (i : Nat) (exit_price : ℚ) (exit_reason : ExitReason)
      (timestamp : ℚ) : Reachable a →
      Reachable (close_position a i exit_price exit_reason timestamp)

/-- The account states reachable by `open_position` calls alone, each at a
nonnegative price. -/
inductive ReachableByOpens : VirtualAccount → Prop where
  | init : ReachableByOpens fresh_account
  | open_step {a} (side : OrderSide) (price : ℚ) (quantity? : Option ℚ)
      (take_profit stop_loss trailing_distance : Option ℚ)
      (max_hold_seconds timestamp : ℚ) : ReachableByOpens a → 0 ≤ price →
      ReachableByOpens (open_position a side price quantity? take_profit stop_loss
        trailing_distance max_hold_seconds timestamp)

/-- Model of `src/ml/trading/stop_loss.py` stop-loss methods. -/
inductive SLMethod where
  | fixed
  | atr
  | trailing
  | multiple
  deriving DecidableEq, Repr

/-- Model of `src/ml/trading/stop_loss.py` `StopLossConfig`, defaults
included. -/
structure StopLossConfig where
  method : SLMethod := .multiple
  fixed_stop_pct : ℚ := 3/2
  take_profit_pct : ℚ := 3
  atr_multiplier : ℚ := 2
  atr_period : Nat := 14
  trailing_distance : ℚ := 1
  trailing_activation : ℚ := 1
  max_hold_seconds : ℚ := 900
  deriving DecidableEq, Repr

/-- Model of `StopLossManager._check_fixed_stop` (src/ml/trading/stop_loss.py
lines 89–125): the position's stop price (when truthy) and then the
configured percentage stop. -/
def check_fixed_stop (cfg : StopLossConfig) (pos : Position) (current_price : ℚ) :
    Bool × Option ExitReason :=
  let sl_hit : Bool := match pos.stop_loss_price with
    | some sl => decide (sl ≠ 0) && (match pos.side with
        | .long => decide (current_price ≤ sl)
        | .short => decide (sl ≤ current_price))
    | none => false
  if sl_hit then (true, some .stop_loss)
  else
    let stop_pct := cfg.fixed_stop_pct / 100
    match pos.side with
    | .long =>
      if current_price ≤ pos.entry_price * (1 - stop_pct) then (true, some .stop_loss)
      else (false, none)
    | .short =>
      if pos.entry_price * (1 + stop_pct) ≤ current_price then (true, some .stop_loss)
      else (false, none)

/-- Model of `StopLossManager._check_trailing_stop` (src/ml/trading/stop_loss.py
lines 127–177). -/
def check_trailing_stop (cfg : StopLossConfig) (pos : Position) (current_price : ℚ) :
    Bool × Option ExitReason :=
  let distance_pct := pos.trailing_stop_distance.getD cfg.trailing_distance
  if pos.unrealized_pnl_pct < cfg.trailing_activation then (false, none)
  else
    match pos.side with
    | .long =>
      if 0 < pos.highest_price ∧
          current_price ≤ pos.highest_price * (1 - distance_pct / 100) then
        (true, some .trailing_stop)
      else (false, none)
    | .short =>
      if 0 < pos.lowest_price ∧
          pos.lowest_price * (1 + distance_pct / 100) ≤ current_price then
        (true, some .trailing_stop)
      else (false, none)

/-- Model of `StopLossManager._get_atr` (src/ml/trading/stop_loss.py lines
280–303); the optional feature is reduced to its `volatility_5m` field. -/
def get_atr (pos : Position) (feature : Option ℚ) : Option ℚ :=
  match feature with
  | some volatility => if 0 < volatility then some (pos.entry_price * (volatility / 100))
    else none
  | none => none

/-- Model of `StopLossManager._check_atr_stop` (src/ml/trading/stop_loss.py
lines 179–216). -/
def check_atr_stop (cfg : StopLossConfig) (pos : Position) (current_price : ℚ)
    (feature : Option ℚ) : Bool × Option ExitReason :=
  match get_atr pos feature with
  | none => check_fixed_stop cfg pos current_price
  | some atr =>
    if atr ≤ 0 then check_fixed_stop cfg pos current_price
    else
      match pos.side with
      | .long =>
        if current_price ≤ pos.entry_price - atr * cfg.atr_multiplier then
          (true, some .stop_loss)
        else (false, none)
      | .short =>
        if pos.entry_price + atr * cfg.atr_multiplier ≤ current_price then
          (true, some .stop_loss)
        else (false, none)

/-- Model of `StopLossManager._check_time_stop` (src/ml/trading/stop_loss.py
lines 218–239); `now` stands for `datetime.now()`. -/
def check_time_stop (cfg : StopLossConfig) (pos : Position) (now : ℚ) :
    Bool × Option ExitReason :=
  let max_hold := if pos.max_hold_seconds ≤ 0 then cfg.max_hold_seconds
    else pos.max_hold_seconds
  if max_hold < now - pos.entry_time then (true, some .time_exit)
  else (false, none)

/-- Model of `StopLossManager._check_multiple_stops` (src/ml/trading/stop_loss.py
lines 241–278): fixed, then trailing, then time. -/
def check_multiple_stops (cfg : StopLossConfig) (pos : Position) (current_price : ℚ)
    (now : ℚ) : Bool × Option ExitReason :=
  let fixed := check_fixed_stop cfg pos current_price
  if fixed.1 then fixed
  else
    let trailing := check_trailing_stop cfg pos current_price
    if trailing.1 then trailing
    else
      let time := check_time_stop cfg pos now
      if time.1 then time
      else (false, none)

/-- Model of `StopLossManager.check_stop_loss` (src/ml/trading/stop_loss.py
lines 59–87). -/
def check_stop_loss (cfg : StopLossConfig) (pos : Position) (current_price : ℚ)
    (feature : Option ℚ) (now : ℚ) : Bool × Option ExitReason :=
  match cfg.method with
  | .fixed => check_fixed_stop cfg pos current_price
  | .trailing => check_trailing_stop cfg pos current_price
  | .atr => check_atr_stop cfg pos current_price feature
  | .multiple => check_multiple_stops cfg pos current_price now

/-- The take-profit test at the head of `PositionManager.check_exit`
(`if position.take_profit_price:` is Python truthiness). -/
def take_profit_hit (pos : Position) (current_price : ℚ) : Bool :=
  match pos.take_profit_price with
  | some tp => decide (tp ≠ 0) && (match pos.side with
      | .long => decide (tp ≤ current_price)
      | .short => decide (current_price ≤ tp))
  | none => false

/-- Model of `PositionManager.check_exit` (src/ml/trading/position_manager.py
lines 228–287): take-profit, then the stop-loss manager (or the simple stop
when none is configured), then time exit, then liquidation at
`unrealized_pnl_pct < -100 / leverage`.  `now` stands for both the
`timestamp` argument and `datetime.now()` inside the manager's time stop. -/
def check_exit (slm : Option StopLossConfig) (pos : Position) (current_price : ℚ)
    (feature : Option ℚ) (now : ℚ) : Bool × Option ExitReason :=
  if take_profit_hit pos current_price then (true, some .take_profit)
  else
    let stop := match slm with
      | some cfg => check_stop_loss cfg pos current_price feature now
      | none =>
        match pos.stop_loss_price with
        | some sl =>
          if decide (sl ≠ 0) && (match pos.side with
              | .long => decide (current_price ≤ sl)
              | .short => decide (sl ≤ current_price)) then
            (true, some ExitReason.stop_loss)
          else (false, none)
        | none => (false, none)
    if stop.1 then stop
    else if pos.max_hold_seconds < now - pos.entry_time then (true, some .time_exit)
    else if pos.unrealized_pnl_pct < -100 / pos.leverage then (true, some .liquidation)
    else (false, none)

/-- First-match evaluation of a list of (condition, exit reason) pairs: the
specification's fixed exit order. -/
def first_trigger : List (Bool × ExitReason) → Bool × Option ExitReason
  | [] => (false, none)
  | (c, r) :: rest => if c then (true, some r) else first_trigger rest

/-- The mean of the previous `volume_periods - 1` ticks' volumes (current
tick excluded), as `get_volume_ratio` computes it; 0 when there are no such
ticks. -/
def prev_mean_volume (volume_periods : Nat) (t : SymbolTracker) : ℚ :=
  let volumes := ((pyTakeLast volume_periods t.price_history).dropLast).map (·.volume)
  volumes.sum / (volumes.length : ℚ)

/-- A concrete tracker: ten ticks with volumes 1..10, latest volume 10. -/
def vr_tracker : SymbolTracker :=
  { price_history :=
      [⟨100, 1, 0⟩, ⟨100, 2, 1⟩, ⟨100, 3, 2⟩, ⟨100, 4, 3⟩, ⟨100, 5, 4⟩,
       ⟨100, 6, 5⟩, ⟨100, 7, 6⟩, ⟨100, 8, 7⟩, ⟨100, 9, 8⟩, ⟨100, 10, 9⟩]
    oi_history := [], spot_price_history := [], latest_volume := 10 }

/-- A concrete tracker with one stale and one fresh entry in the price and OI
rings, and a stale entry in the spot ring. -/
def cleanup_tracker : SymbolTracker :=
  { price_history := [⟨100, 1, 0⟩, ⟨101, 1, 500⟩]
    oi_history := [(0, 5), (500, 6)]
    spot_price_history := [(0, 50)] }

/-- A concrete small tier. -/
def tier_small : VolumeTierConfig := { min_quote_volume := 0, price_threshold := 2, label := 0 }

/-- A concrete middle tier. -/
def tier_mid : VolumeTierConfig :=
  { min_quote_volume := 10000000, price_threshold := 1, label := 1 }

/-- A concrete large tier. -/
def tier_big : VolumeTierConfig :=
  { min_quote_volume := 100000000, price_threshold := 1/2, label := 2 }

/-- A concrete tracker whose last 30 seconds of prices rush from 100 to a
high of 102 and retrace to 100.368: the retrace is exactly 80% of the rise. -/
def fs_tracker : SymbolTracker :=
  { price_history :=
      [⟨100, 0, 0⟩, ⟨102, 0, 1⟩, ⟨101, 0, 2⟩, ⟨101, 0, 3⟩, ⟨101, 0, 4⟩,
       ⟨101, 0, 5⟩, ⟨101, 0, 6⟩, ⟨101, 0, 7⟩, ⟨101, 0, 8⟩, ⟨12546/125, 0, 9⟩]
    oi_history := [], spot_price_history := [] }

/-- A depth snapshot with a 1,000,000-USDT bid wall at price 100. -/
def ob_snap1 : OrderBookSnapshot :=
  { bids := [(100, 10000), (999/10, 100), (499/5, 100), (997/10, 100)]
    asks := [(101, 1)] }

/-- The following depth snapshot: the bid wall at 100 has fully vanished. -/
def ob_snap2 : OrderBookSnapshot :=
  { bids := [(999/10, 100), (499/5, 100), (997/10, 100)]
    asks := [(101, 1)] }

/-- Monitor state after processing `ob_snap1` from a fresh monitor under the
default configuration. -/
def ob_st1 : OrderBookMonitorState := (process_snapshot {} 0 {} ob_snap1).2

/-- Result of processing `ob_snap2` next, 10 seconds later. -/
def ob_out2 : List OrderBookEvent × OrderBookMonitorState :=
  process_snapshot {} 10 ob_st1 ob_snap2

/-- A feature vector registered at time 0 with price 100. -/
def c1_feature : MLFeatureVector := ⟨0, 100⟩

/-- Account after opening a LONG of quantity 15 at price 100 on a fresh
account. -/
def acct1 : VirtualAccount :=
  open_position fresh_account .long 100 (some 15) none none none 900 0

/-- Account after additionally opening a LONG of quantity 150 at price 100. -/
def acct2 : VirtualAccount :=
  open_position acct1 .long 100 (some 150) none none none 900 0

/-- Account after closing the second position at exit price 1: the realized
loss of 14850.075 USDT drives the balance far below the margin still held by
the first position. -/
def acct3 : VirtualAccount := close_position acct2 1 1 .manual 0

/-- A concrete LONG position held for 10 seconds with no exit condition
met. -/
def c6_pos : Position :=
  { side := .long, quantity := 10, entry_price := 100, entry_time := 0,
    margin := 100, take_profit_price := some 103, stop_loss_price := some (197/2),
    max_hold_seconds := 900, current_price := 99, unrealized_pnl_pct := -1,
    highest_price := 100, lowest_price := 99 }

/-- On a list whose key is weakly increasing, dropping a downward-closed
prefix is the same as filtering: front eviction removes exactly the old
entries. -/
theorem dropWhile_lt_eq_filter_of_sorted (key : α → ℚ) (c : ℚ) :
    ∀ l : List α, l.Pairwise (fun a b => key a ≤ key b) →
      l.dropWhile (fun a => key a < c) = l.filter (fun a => c ≤ key a)
  | [], _ => rfl
  | a :: l, h => by
    rcases List.pairwise_cons.mp h with ⟨ha, hl⟩
    by_cases hc : key a < c
    · have h1 : (a :: l).dropWhile (fun a => decide (key a < c)) =
          l.dropWhile (fun a => decide (key a < c)) := by
        simp [List.dropWhile, hc]
      have h2 : (a :: l).filter (fun a => decide (c ≤ key a)) =
          l.filter (fun a => decide (c ≤ key a)) := by
        simp [List.filter, not_le.mpr hc]
      rw [h1, h2, dropWhile_lt_eq_filter_of_sorted key c l hl]
    · push_neg at hc
      have h1 : (a :: l).dropWhile (fun a => decide (key a < c)) = a :: l := by
        simp [List.dropWhile, not_lt.mpr hc]
      have h2 : (a :: l).filter (fun a => decide (c ≤ key a)) = a :: l := by
        refine List.filter_eq_self.mpr ?_
        intro b hb
        rcases List.mem_cons.mp hb with rfl | hb
        · simpa using hc
        · simpa using le_trans hc (ha b hb)
      rw [h1, h2]

/-- C8: `PriceTracker.get_volume_ratio` returns `none` iff the symbol has
fewer than `volume_periods` recorded price points or the mean volume of the
previous `volume_periods - 1` ticks (current excluded) is zero; otherwise it
returns the latest volume divided by that mean. -/
theorem get_volume_ratio_none_iff (volume_periods : Nat) (t : SymbolTracker)
    (hp : 1 ≤ volume_periods) :
    (get_volume_ratio volume_periods t = none ↔
      t.price_history.length < volume_periods ∨ prev_mean_volume volume_periods t = 0) ∧
    (∀ r, get_volume_ratio volume_periods t = some r →
      r = t.latest_volume / prev_mean_volume volume_periods t) := by
  by_cases hlen : t.price_history.length < volume_periods
  · constructor
    · simp [get_volume_ratio, hlen]
    · intro r hr
      simp [get_volume_ratio, hlen] at hr
  · set volumes := ((pyTakeLast volume_periods t.price_history).dropLast).map (·.volume)
      with hv
    have hmean : prev_mean_volume volume_periods t = volumes.sum / (volumes.length : ℚ) :=
      rfl
    by_cases hz : volumes.isEmpty ∨ volumes.sum = 0
    · have hsum : volumes.sum = 0 := by
        rcases hz with h | h
        · rw [List.isEmpty_iff] at h
          rw [h]
          rfl
        · exact h
      have h0 : prev_mean_volume volume_periods t = 0 := by
        rw [hmean, hsum, zero_div]
      have hnone : get_volume_ratio volume_periods t = none := by
        simp only [get_volume_ratio, hlen, if_false]
        rw [← hv]
        simp [hsum]
      constructor
      · rw [hnone]
        simp [h0]
      · intro r hr
        rw [hnone] at hr
        exact absurd hr (by simp)
    · push_neg at hz
      obtain ⟨hne, hsum⟩ := hz
      have hlen0 : volumes.length ≠ 0 := by
        intro h
        exact absurd (List.isEmpty_iff.mpr (List.length_eq_zero.mp h)) hne
      have havg : volumes.sum / (volumes.length : ℚ) ≠ 0 :=
        div_ne_zero hsum (Nat.cast_ne_zero.mpr hlen0)
      have hout : get_volume_ratio volume_periods t =
          some (t.latest_volume / (volumes.sum / (volumes.length : ℚ))) := by
        simp only [get_volume_ratio, hlen, if_false]
        rw [← hv]
        simp only [hne, hsum, havg, if_false]
        simp [hne, hsum, havg]
      constructor
      · rw [hout]
        simp [hlen, hmean, havg]
      · intro r hr
        rw [hout] at hr
        rw [hmean]
        exact (Option.some_injective _ hr).symm

/-- C8 witness: ten ticks with volumes 1..10 give mean 5 over the previous
nine and ratio 2. -/
theorem get_volume_ratio_none_iff_witness :
    (get_volume_ratio 10 vr_tracker = none ↔
      vr_tracker.price_history.length < 10 ∨ prev_mean_volume 10 vr_tracker = 0) ∧
    (∀ r, get_volume_ratio 10 vr_tracker = some r →
      r = vr_tracker.latest_volume / prev_mean_volume 10 vr_tracker) :=
  get_volume_ratio_none_iff 10 vr_tracker (by decide)

/-- C4 (amended): `cleanup_old_data` evicts from the front of the price ring
and of the OI ring exactly the entries older than `now - max_age` (the
histories being time-ordered), and leaves the newer entries; the spot-price
ring is not touched at all. -/
theorem cleanup_old_data_spec (now max_age : ℚ) (t : SymbolTracker)
    (hprice : t.price_history.Pairwise (fun a b => a.timestamp ≤ b.timestamp))
    (hoi : t.oi_history.Pairwise (fun a b => a.1 ≤ b.1)) :
    (cleanup_old_data now max_age t).price_history =
      t.price_history.filter (fun p => now - max_age ≤ p.timestamp) ∧
    (cleanup_old_data now max_age t).oi_history =
      t.oi_history.filter (fun p => now - max_age ≤ p.1) ∧
    (cleanup_old_data now max_age t).spot_price_history = t.spot_price_history := by
  refine ⟨?_, ?_, rfl⟩
  · exact dropWhile_lt_eq_filter_of_sorted (fun p => p.timestamp) (now - max_age)
      t.price_history hprice
  · exact dropWhile_lt_eq_filter_of_sorted (fun p => p.1) (now - max_age)
      t.oi_history hoi

/-- C4 witness: at `now = 4000`, `max_age = 3600` the stale price and OI
entries at time 0 are evicted and the fresh ones at time 500 stay. -/
theorem cleanup_old_data_spec_witness :
    (cleanup_old_data 4000 3600 cleanup_tracker).price_history =
      cleanup_tracker.price_history.filter (fun p => 4000 - 3600 ≤ p.timestamp) ∧
    (cleanup_old_data 4000 3600 cleanup_tracker).oi_history =
      cleanup_tracker.oi_history.filter (fun p => 4000 - 3600 ≤ p.1) ∧
    (cleanup_old_data 4000 3600 cleanup_tracker).spot_price_history =
      cleanup_tracker.spot_price_history :=
  cleanup_old_data_spec 4000 3600 cleanup_tracker (by decide) (by decide)

/-- C4 counterexample: the spot-price ring keeps an entry whose timestamp 0
is older than `now - max_age = 400`, so `cleanup_old_data` does NOT evict old
entries from the spot-price history. -/
theorem cleanup_old_data_spot_counterexample :
    (cleanup_old_data 4000 3600 cleanup_tracker).spot_price_history = [(0, 50)] ∧
    (0 : ℚ) < 4000 - 3600 := by
  constructor
  · rfl
  · norm_num

/-- C5: tier selection walks the descending-sorted tier list and is monotone:
raising the position value `currentPrice × openInterest` can only keep or
promote the selected tier's `min_quote_volume` floor. -/
theorem get_tier_monotone (tiers : List VolumeTierConfig)
    (hs : tiers.Pairwise (fun a b => b.min_quote_volume ≤ a.min_quote_volume))
    (v1 v2 : ℚ) (h12 : v1 ≤ v2) (t1 : VolumeTierConfig)
    (h1 : get_tier tiers v1 = some t1) :
    ∃ t2, get_tier tiers v2 = some t2 ∧ t1.min_quote_volume ≤ t2.min_quote_volume := by
  induction tiers with
  | nil => simp [get_tier] at h1
  | cons t rest ih =>
    rcases List.pairwise_cons.mp hs with ⟨hhead, hrest⟩
    by_cases hv1 : t.min_quote_volume ≤ v1
    · have ht1 : t1 = t := by
        rw [get_tier, List.find?_cons_of_pos _ (by simpa using hv1)] at h1
        exact (Option.some_injective _ h1).symm
      refine ⟨t, ?_, by rw [ht1]⟩
      rw [get_tier, List.find?_cons_of_pos _ (by simpa using le_trans hv1 h12)]
    · have h1' : get_tier rest v1 = some t1 := by
        rwa [get_tier, List.find?_cons_of_neg _ (by simpa using hv1)] at h1
      by_cases hv2 : t.min_quote_volume ≤ v2
      · refine ⟨t, ?_, ?_⟩
        · rw [get_tier, List.find?_cons_of_pos _ (by simpa using hv2)]
        · exact hhead t1 (List.mem_of_find?_eq_some h1')
      · obtain ⟨t2, ht2, hle⟩ := ih hrest h1'
        refine ⟨t2, ?_, hle⟩
        rwa [get_tier, List.find?_cons_of_neg _ (by simpa using hv2)]

/-- C5 witness: with tiers at floors 100M, 10M, 0, the value 20M selects the
10M tier and the larger value 200M selects a tier with an at-least-equal
floor. -/
theorem get_tier_monotone_witness :
    ∃ t2, get_tier [tier_big, tier_mid, tier_small] 200000000 = some t2 ∧
      tier_mid.min_quote_volume ≤ t2.min_quote_volume :=
  get_tier_monotone [tier_big, tier_mid, tier_small]
    (by norm_num [tier_big, tier_mid, tier_small, List.pairwise_cons])
    20000000 200000000 (by norm_num) tier_mid
    (by norm_num [get_tier, tier_big, tier_mid, List.find?])

/-- C9: the alert engine's risk gating is fail-open: a triggered event is
delivered to `on_alert` unless the risk filter ran to completion and reported
that the alert should be filtered; a missing filter or an exception during
the check never suppresses the event. -/
theorem check_risk_filter_fail_open :
    ∀ (filter_alerts : Bool) (rf : Option RiskOutcome),
      (check_risk_filter filter_alerts rf = true ↔
        ∀ r, rf = some (.completed r) → should_filter_alert filter_alerts r = false) ∧
      ∀ (events : List (Nat × Option RiskOutcome)) (e : Nat),
        (e ∈ check_all_delivered filter_alerts events ↔
          ∃ o, (e, o) ∈ events ∧ check_risk_filter filter_alerts o = true) := by
  intro fa rf
  constructor
  · cases rf with
    | none => simp [check_risk_filter]
    | some o =>
      cases o with
      | raised => simp [check_risk_filter]
      | completed r =>
        by_cases h : should_filter_alert fa r
        · simp [check_risk_filter, h]
        · simp [check_risk_filter, h]
  · intro events e
    simp only [check_all_delivered, List.mem_map, List.mem_filter]
    constructor
    · rintro ⟨⟨e', o⟩, ⟨hm, hg⟩, rfl⟩
      exact ⟨o, hm, hg⟩
    · rintro ⟨o, hm, hg⟩
      exact ⟨(e, o), ⟨hm, hg⟩, rfl⟩

/-- A left fold of `max` stays among the seed and the list elements. -/
theorem foldl_max_mem (l : List ℚ) (a : ℚ) : l.foldl max a ∈ a :: l := by
  induction l generalizing a with
  | nil => simp
  | cons b t ih =>
    have h := ih (max a b)
    rcases List.mem_cons.mp h with h | h
    · rw [List.foldl_cons, h]
      rcases max_choice a b with hm | hm <;> rw [hm] <;> simp
    · simp [List.foldl_cons, h]

/-- A left fold of `min` stays among the seed and the list elements. -/
theorem foldl_min_mem (l : List ℚ) (a : ℚ) : l.foldl min a ∈ a :: l := by
  induction l generalizing a with
  | nil => simp
  | cons b t ih =>
    have h := ih (min a b)
    rcases List.mem_cons.mp h with h | h
    · rw [List.foldl_cons, h]
      rcases min_choice a b with hm | hm <;> rw [hm] <;> simp
    · simp [List.foldl_cons, h]

/-- `pyMax` of a nonempty list is one of its elements. -/
theorem pyMax_mem (l : List ℚ) (h : l ≠ []) : pyMax l ∈ l := by
  have hm := foldl_max_mem l (l.headD 0)
  rcases List.mem_cons.mp hm with h1 | h1
  · rw [pyMax, h1]
    cases l with
    | nil => exact absurd rfl h
    | cons x t => simp [List.headD]
  · exact h1

/-- `pyMin` of a nonempty list is one of its elements. -/
theorem pyMin_mem (l : List ℚ) (h : l ≠ []) : pyMin l ∈ l := by
  have hm := foldl_min_mem l (l.headD 0)
  rcases List.mem_cons.mp hm with h1 | h1
  · rw [pyMin, h1]
    cases l with
    | nil => exact absurd rfl h
    | cons x t => simp [List.headD]
  · exact h1

/-- C7 (amended): for a symbol with sufficient price history and positive
prices, `_check_fake_signal` flags a fake signal exactly when either leg is
STRICTLY greater than `fakeSignalMinChange` and the corresponding reverse
ratio STRICTLY greater than `fakeSignalRevertRatio` (the source uses `>` on
both tests, not `≥`). -/
theorem check_fake_signal_iff_spec (cfg : FakeSignalConfig) (now : ℚ) (t : SymbolTracker)
    (hlen : 10 ≤ t.price_history.length)
    (hwin : 5 ≤ (t.price_history.filter
      (fun p => now - cfg.fake_signal_window ≤ p.timestamp)).length)
    (hpos : ∀ p ∈ t.price_history, 0 < p.price)
    (hmc : 0 ≤ cfg.fake_signal_min_change) :
    ((check_fake_signal cfg now t).1 = true ↔ fake_signal_spec_strict cfg now t) := by
  have hlen' : ¬ t.price_history.length < 10 := by omega
  set wp := t.price_history.filter (fun p => now - cfg.fake_signal_window ≤ p.timestamp)
    with hwp
  have hwin' : ¬ wp.length < 5 := by omega
  have hne : wp ≠ [] := by
    intro h
    rw [h] at hwin'
    simp at hwin'
  have hmem_wp : ∀ p ∈ wp, 0 < p.price := fun p hp =>
    hpos p (List.mem_of_mem_filter hp)
  have hhead : wp.headD ⟨0, 0, 0⟩ ∈ wp := by
    rcases List.exists_cons_of_ne_nil hne with ⟨x, l, hxl⟩
    rw [hxl]
    simp [List.headD]
  have hsp : 0 < (wp.headD ⟨0, 0, 0⟩).price := hmem_wp _ hhead
  have hprices_ne : wp.map (·.price) ≠ [] := by simpa using hne
  have hprices_pos : ∀ x ∈ wp.map (·.price), 0 < x := by
    rintro x hx
    rcases List.mem_map.mp hx with ⟨p, hp, rfl⟩
    exact hmem_wp p hp
  have hhigh : 0 < pyMax (wp.map (·.price)) :=
    hprices_pos _ (pyMax_mem _ hprices_ne)
  have hlow : 0 < pyMin (wp.map (·.price)) :=
    hprices_pos _ (pyMin_mem _ hprices_ne)
  rw [check_fake_signal, fake_signal_spec_strict]
  simp only [← hwp]
  rw [if_neg hlen', if_neg hwin', if_neg hsp.ne']
  simp only [if_pos hhigh, if_pos hlow]
  set sp := (wp.headD ⟨0, 0, 0⟩).price
  set curp := (wp.getLastD ⟨0, 0, 0⟩).price
  set high := pyMax (wp.map (·.price))
  set low := pyMin (wp.map (·.price))
  set rise := (high - sp) / sp * 100 with hrise_def
  set fallh := (high - curp) / high * 100
  set falll := (sp - low) / sp * 100 with hfall_def
  set risel := (curp - low) / low * 100
  by_cases hA1 : cfg.fake_signal_min_change < rise
  · have hr0 : 0 < rise := lt_of_le_of_lt hmc hA1
    rw [if_pos hr0]
    by_cases hA2 : cfg.fake_signal_revert_ratio < fallh / rise
    · simp [hA1, hA2]
    · simp only [hA1, hA2, and_false, true_and, if_false, false_or]
      by_cases hB1 : cfg.fake_signal_min_change < falll
      · have hf0 : 0 < falll := lt_of_le_of_lt hmc hB1
        rw [if_pos hf0]
        by_cases hB2 : cfg.fake_signal_revert_ratio < risel / falll
        · simp [hB1, hB2]
        · simp [hB1, hB2]
      · simp [hB1]
  · simp only [hA1, false_and, if_false, false_or]
    by_cases hB1 : cfg.fake_signal_min_change < falll
    · have hf0 : 0 < falll := lt_of_le_of_lt hmc hB1
      rw [if_pos hf0]
      by_cases hB2 : cfg.fake_signal_revert_ratio < risel / falll
      · simp [hB1, hB2]
      · simp [hB1, hB2]
    · simp [hB1]

/-- C7 witness: the rush-and-retrace tracker does satisfy the strict
condition once its retrace is deepened past 80% — here checked on the
original tracker, where neither strict branch fires and the filter reports no
fake signal. -/
theorem check_fake_signal_iff_spec_witness :
    ((check_fake_signal {} 30 fs_tracker).1 = true ↔
      fake_signal_spec_strict {} 30 fs_tracker) :=
  check_fake_signal_iff_spec {} 30 fs_tracker (by norm_num [fs_tracker])
    (by norm_num [fs_tracker, List.filter]) (by norm_num [fs_tracker]) (by norm_num)

/-- C7 counterexample: with the default thresholds (min change 1%, revert
ratio 0.8) and a 30-second window rushing 100 → 102 → 100.368, the rise is
2% and the retrace ratio exactly 0.8: the claim's `≥` reading flags a fake
signal, but the source's strict `>` does not flag. -/
theorem check_fake_signal_ge_counterexample :
    fake_signal_spec_ge {} 30 fs_tracker ∧
    (check_fake_signal {} 30 fs_tracker).1 = false := by
  constructor
  · rw [fake_signal_spec_ge]
    norm_num [fs_tracker, pyMax, pyMin, List.filter, max_def, min_def]
  · rw [check_fake_signal]
    norm_num [fs_tracker, pyMax, pyMin, List.filter, max_def, min_def]

/-- C10: a Trade built with the default `realized_pnl = 0` and a positive
entry price auto-derives its pnl: `realized_pnl_pct` is the signed price
change for the side, `roi = realized_pnl_pct × leverage`, and when
`margin > 0` the recorded `realized_pnl` is `margin × roi / 100` minus the
closing commission. -/
theorem mk_trade_auto_pnl (side : OrderSide) (quantity entry_price entry_time
    exit_price exit_time : ℚ) (exit_reason : ExitReason)
    (leverage commission margin : ℚ) (he : 0 < entry_price) :
    (mk_trade side quantity entry_price entry_time exit_price exit_time
        exit_reason leverage commission margin).realized_pnl_pct =
      (match side with
        | .long => (exit_price - entry_price) / entry_price * 100
        | .short => (entry_price - exit_price) / entry_price * 100) ∧
    (mk_trade side quantity entry_price entry_time exit_price exit_time
        exit_reason leverage commission margin).roi =
      (mk_trade side quantity entry_price entry_time exit_price exit_time
        exit_reason leverage commission margin).realized_pnl_pct * leverage ∧
    (0 < margin →
      (mk_trade side quantity entry_price entry_time exit_price exit_time
          exit_reason leverage commission margin).realized_pnl =
        margin * (mk_trade side quantity entry_price entry_time exit_price exit_time
          exit_reason leverage commission margin).roi / 100 - commission) := by
  by_cases hm : 0 < margin <;>
    cases side <;>
      simp [mk_trade, Trade.calculate_pnl, he, hm]

/-- C10 witness: a LONG closed at +3% with leverage 15, margin 200 and
closing commission 1 records pct 3, roi 45 and pnl 89. -/
theorem mk_trade_auto_pnl_witness :
    (mk_trade .long 10 100 0 103 60 .take_profit 15 1 200).realized_pnl_pct =
      (match OrderSide.long with
        | .long => ((103 : ℚ) - 100) / 100 * 100
        | .short => ((100 : ℚ) - 103) / 100 * 100) ∧
    (mk_trade .long 10 100 0 103 60 .take_profit 15 1 200).roi =
      (mk_trade .long 10 100 0 103 60 .take_profit 15 1 200).realized_pnl_pct * 15 ∧
    ((0 : ℚ) < 200 →
      (mk_trade .long 10 100 0 103 60 .take_profit 15 1 200).realized_pnl =
        200 * (mk_trade .long 10 100 0 103 60 .take_profit 15 1 200).roi / 100 - 1) :=
  mk_trade_auto_pnl .long 10 100 0 103 60 .take_profit 15 1 200 (by norm_num)

/-- The second component of `_check_fixed_stop` is determined by the first. -/
theorem check_fixed_stop_shape (cfg : StopLossConfig) (pos : Position) (cp : ℚ) :
    check_fixed_stop cfg pos cp =
      ((check_fixed_stop cfg pos cp).1,
        if (check_fixed_stop cfg pos cp).1 then some ExitReason.stop_loss else none) := by
  cases hsl : pos.stop_loss_price <;> cases hs : pos.side <;>
    simp only [check_fixed_stop, hsl, hs] <;> split_ifs <;> first | rfl | simp_all

/-- The second component of `_check_trailing_stop` is determined by the
first. -/
theorem check_trailing_stop_shape (cfg : StopLossConfig) (pos : Position) (cp : ℚ) :
    check_trailing_stop cfg pos cp =
      ((check_trailing_stop cfg pos cp).1,
        if (check_trailing_stop cfg pos cp).1 then some ExitReason.trailing_stop
        else none) := by
  cases hs : pos.side <;>
    simp only [check_trailing_stop, hs] <;> split_ifs <;> first | rfl | simp_all

/-- With a positive per-position hold limit, `_check_time_stop` triggers
exactly on `hold > max_hold_seconds`. -/
theorem check_time_stop_shape (cfg : StopLossConfig) (pos : Position) (now : ℚ)
    (hh : 0 < pos.max_hold_seconds) :
    check_time_stop cfg pos now =
      (decide (pos.max_hold_seconds < now - pos.entry_time),
        if pos.max_hold_seconds < now - pos.entry_time then some ExitReason.time_exit
        else none) := by
  unfold check_time_stop
  rw [if_neg (not_le.mpr hh)]
  split_ifs with h <;> simp [h]

/-- C6: under the `multiple` stop-loss method, `check_exit` is first-match
evaluation in the fixed order take-profit, fixed stop, trailing stop, time
exit, liquidation, with liquidation firing exactly when the position's
unrealized pnl percentage is below `-100 / leverage`. -/
theorem check_exit_multiple_order (cfg : StopLossConfig) (pos : Position)
    (current_price : ℚ) (feature : Option ℚ) (now : ℚ)
    (hm : cfg.method = .multiple) (hh : 0 < pos.max_hold_seconds) :
    check_exit (some cfg) pos current_price feature now = first_trigger
      [(take_profit_hit pos current_price, .take_profit),
       ((check_fixed_stop cfg pos current_price).1, .stop_loss),
       ((check_trailing_stop cfg pos current_price).1, .trailing_stop),
       (decide (pos.max_hold_seconds < now - pos.entry_time), .time_exit),
       (decide (pos.unrealized_pnl_pct < -100 / pos.leverage), .liquidation)] := by
  rw [check_exit, check_stop_loss, hm, check_multiple_stops,
    check_fixed_stop_shape cfg pos current_price,
    check_trailing_stop_shape cfg pos current_price,
    check_time_stop_shape cfg pos now hh]
  simp only [first_trigger]
  by_cases htp : take_profit_hit pos current_price
  · simp [htp]
  · simp only [htp, Bool.false_eq_true, if_false, decide_eq_true_eq]
    by_cases hf : (check_fixed_stop cfg pos current_price).1
    · simp [hf]
    · simp only [hf, Bool.false_eq_true, if_false]
      by_cases ht : (check_trailing_stop cfg pos current_price).1
      · simp [ht]
      · simp only [ht, Bool.false_eq_true, if_false]
        by_cases htime : pos.max_hold_seconds < now - pos.entry_time
        · simp [htime]
        · simp only [htime, decide_False, Bool.false_eq_true, if_false, if_neg htime]

/-- C6 witness: a LONG held for 10 of 900 seconds at a small loss triggers
none of the five conditions and `check_exit` agrees with the first-match
evaluation. -/
theorem check_exit_multiple_order_witness :
    check_exit (some {}) c6_pos 99 none 10 = first_trigger
      [(take_profit_hit c6_pos 99, .take_profit),
       ((check_fixed_stop {} c6_pos 99).1, .stop_loss),
       ((check_trailing_stop {} c6_pos 99).1, .trailing_stop),
       (decide (c6_pos.max_hold_seconds < 10 - c6_pos.entry_time), .time_exit),
       (decide (c6_pos.unrealized_pnl_pct < -100 / c6_pos.leverage), .liquidation)] :=
  check_exit_multiple_order {} c6_pos 99 none 10 rfl (by norm_num [c6_pos])

/-- C1 exhibit: with a feature registered at time 0 and `now` exactly 1800
seconds later (the longest label window), `try_generate_labels` DOES emit a
label, and its `label_generated_at` equals `featureTs + 1800` — it is not
strictly greater, contradicting the documented invariant
`labelGeneratedAt > featureTs + maxLabelWindow`. -/
theorem label_generated_at_boundary :
    (try_generate_labels (1/10) 1800 [] [(0, c1_feature)]).1 =
      [{ timestamp := 0, label_generated_at := 1800 }] ∧
    ¬ ((0 : ℚ) + max_label_window < 1800) := by
  constructor
  · norm_num [try_generate_labels, compute_label, c1_feature, max_label_window,
      label_return, get_price_at_time, closest_point, get_extremes_in_window,
      label_direction]
  · norm_num [max_label_window]

/-- C2 exhibit: after the first snapshot the monitor tracks the 1,000,000-USDT
bid wall at price 100; in the next snapshot that wall has fully vanished
(resting quantity 0 < 20% of 10000, vanished value 1,000,000 ≥ the 300,000
threshold, sweep cooldown idle), yet `process_snapshot` emits NO sweep event:
`_detect_walls` already replaced the tracked-wall set with the current
snapshot's walls before `_detect_sweep` ran. -/
theorem sweep_never_fires :
    ob_st1.tracked_walls = [(100, ⟨100, 10000, 1000000, .bid⟩)] ∧
    pyDictGetD ob_snap2.bids 100 < 10000 * (2/10) ∧
    (300000 : ℚ) ≤ 1000000 - 100 * pyDictGetD ob_snap2.bids 100 ∧
    ob_is_cooled_down {} 10 ob_st1.cooldowns (.sweep .bid) = true ∧
    (ob_out2.1.filter (fun e => e.event_type = .sweep)) = [] ∧
    (ob_out2.2.tracked_walls = []) := by
  have hst1 : ob_st1 =
      { prev_snapshot := some ob_snap1,
        tracked_walls := [(100, ⟨100, 10000, 1000000, .bid⟩)],
        cooldowns := [(.imbalance .bid, 0), (.wall .bid, 0)] } := by
    rw [ob_st1]
    norm_num +decide [process_snapshot, detect_walls, detect_imbalance, detect_sweep,
      scan_walls, dictInsert, ob_snap1, OrderBookSnapshot.best_bid,
      OrderBookSnapshot.best_ask, OrderBookSnapshot.imbalance_ratio,
      OrderBookSnapshot.bid_depth, OrderBookSnapshot.ask_depth,
      ob_is_cooled_down, ob_record_cooldown, assoc_lookup, List.find?, abs_of_pos]
  have hout2 : ob_out2.1 = [] ∧ ob_out2.2.tracked_walls = [] := by
    rw [ob_out2, hst1]
    norm_num +decide [process_snapshot, detect_walls, detect_imbalance, detect_sweep,
      scan_walls, dictInsert, pyDictGetD, ob_snap2, OrderBookSnapshot.best_bid,
      OrderBookSnapshot.best_ask, OrderBookSnapshot.imbalance_ratio,
      OrderBookSnapshot.bid_depth, OrderBookSnapshot.ask_depth,
      ob_is_cooled_down, ob_record_cooldown, assoc_lookup, List.find?, abs_of_pos]
  refine ⟨by rw [hst1], ?_, ?_, ?_, ?_, hout2.2⟩
  · norm_num +decide [pyDictGetD, ob_snap2, assoc_lookup, List.find?]
  · norm_num +decide [pyDictGetD, ob_snap2, assoc_lookup, List.find?]
  · rw [hst1]
    norm_num +decide [ob_is_cooled_down, assoc_lookup, List.find?]
  · rw [hout2.1]
    rfl

/-- One successful or rejected `open_position` call at a nonnegative price
preserves the margin invariant: the `can_open_position` checks (margin-ratio
bound 0.8 included) leave room for the opening commission, so
`marginUsed ≤ balance` survives the commission deduction. -/
theorem open_position_preserves (a : VirtualAccount) (side : OrderSide) (price : ℚ)
    (quantity? : Option ℚ) (take_profit stop_loss trailing_distance : Option ℚ)
    (max_hold_seconds timestamp : ℚ)
    (hconf : a.config = {}) (hb : 0 < a.balance)
    (hpm : ∀ p ∈ a.positions, 0 ≤ p.margin)
    (hle : get_margin_used a ≤ a.balance) (hp : 0 ≤ price) :
    (open_position a side price quantity? take_profit stop_loss trailing_distance
      max_hold_seconds timestamp).config = {} ∧
    0 < (open_position a side price quantity? take_profit stop_loss trailing_distance
      max_hold_seconds timestamp).balance ∧
    (∀ p ∈ (open_position a side price quantity? take_profit stop_loss trailing_distance
      max_hold_seconds timestamp).positions, 0 ≤ p.margin) ∧
    get_margin_used (open_position a side price quantity? take_profit stop_loss
      trailing_distance max_hold_seconds timestamp) ≤
      (open_position a side price quantity? take_profit stop_loss trailing_distance
        max_hold_seconds timestamp).balance := by
  have hmu : 0 ≤ get_margin_used a := by
    refine List.sum_nonneg ?_
    intro x hx
    rcases List.mem_map.mp hx with ⟨p, hppos, rfl⟩
    exact hpm p hppos
  rw [open_position]
  set q := open_quantity a side price quantity? stop_loss with hqdef
  by_cases hq0 : q ≤ 0
  · rw [if_pos hq0]
    exact ⟨hconf, hb, hpm, hle⟩
  · rw [if_neg hq0]
    push_neg at hq0
    by_cases hco : can_open_position a (calculate_margin a q price) = true
    case neg =>
      rw [Bool.not_eq_true] at hco
      simp only [hco, Bool.not_false, if_true]
      exact ⟨hconf, hb, hpm, hle⟩
    case pos =>
      simp only [hco, Bool.not_true, Bool.false_eq_true, if_false]
      have hm15 : calculate_margin a q price = q * price / 15 := by
        rw [calculate_margin, hconf]
      have hm0 : 0 ≤ calculate_margin a q price := by
        rw [hm15]
        exact div_nonneg (mul_nonneg hq0.le hp) (by norm_num)
      have hfees : calculate_commission a q price false =
          3 * calculate_margin a q price / 400 := by
        simp only [calculate_commission, hconf, hm15, Bool.false_eq_true, if_false]
        ring
      have hratio : get_margin_used a + calculate_margin a q price ≤ 4/5 * a.balance := by
        have h := hco
        rw [can_open_position] at h
        split_ifs at h with h1 h2 h3
        push_neg at h3
        rw [hconf] at h3
        have h3' : (get_margin_used a + calculate_margin a q price) / a.balance ≤ 4/5 := by
          simpa using h3
        rw [div_le_iff hb] at h3'
        linarith
      refine ⟨hconf, ?_, ?_, ?_⟩
      · show 0 < a.balance - calculate_commission a q price false
        rw [hfees]
        linarith
      · intro p hpmem
        rcases List.mem_append.mp hpmem with hpmem | hpmem
        · exact hpm p hpmem
        · rcases List.mem_singleton.mp hpmem with rfl
          exact hm0
      · simp only [get_margin_used, List.map_append, List.sum_append, List.map_cons,
          List.map_nil, List.sum_cons, List.sum_nil, add_zero]
        simp only [get_margin_used] at hle hmu hratio
        rw [hfees] at *
        linarith

/-- C3 (amended): in every account state reachable from a fresh
`VirtualAccount` by `open_position` calls alone (each at a nonnegative
price), the total margin of the open positions never exceeds the balance;
`close_position` at a large enough loss can break this (see the
counterexample). -/
theorem margin_le_balance_of_opens (a : VirtualAccount) (h : ReachableByOpens a) :
    get_margin_used a ≤ a.balance := by
  suffices hs : a.config = {} ∧ 0 < a.balance ∧
      (∀ p ∈ a.positions, 0 ≤ p.margin) ∧ get_margin_used a ≤ a.balance by
    exact hs.2.2.2
  induction h with
  | init =>
    refine ⟨rfl, by norm_num [fresh_account], ?_, ?_⟩
    · intro p hpmem
      simp [fresh_account] at hpmem
    · norm_num [fresh_account, get_margin_used]
  | open_step side price q? tp sl tr mh ts hr hpr ih =>
    exact open_position_preserves _ side price q? tp sl tr mh ts
      ih.1 ih.2.1 ih.2.2.1 ih.2.2.2 hpr

/-- C3 witness: after one LONG open of quantity 15 at price 100 the margin
used (100) is below the balance (9999.25). -/
theorem margin_le_balance_of_opens_witness :
    get_margin_used acct1 ≤ acct1.balance :=
  margin_le_balance_of_opens acct1
    (ReachableByOpens.open_step .long 100 (some 15) none none none 900 0
      ReachableByOpens.init (by norm_num))

/-- C3 counterexample: open two LONG positions (margins 100 and 1000) and
close the second at exit price 1: its realized loss of 14850.075 drives the
balance to -4858.325 while the first position still holds 100 of margin, so
`marginUsed ≤ balance` fails on a reachable state. -/
theorem margin_can_exceed_balance :
    ¬ ∀ a, Reachable a → get_margin_used a ≤ a.balance := by
  intro hall
  have h3 : Reachable acct3 :=
    Reachable.close_step 1 1 .manual 0
      (Reachable.open_step .long 100 (some 150) none none none 900 0
        (Reachable.open_step .long 100 (some 15) none none none 900 0 Reachable.init))
  have hle := hall acct3 h3
  have hcontra : ¬ get_margin_used acct3 ≤ acct3.balance := by
    norm_num [acct3, acct2, acct1, fresh_account, open_position, close_position,
      open_quantity, open_stop_loss_pct, calculate_margin, calculate_commission,
      can_open_position, get_available_margin, get_margin_used, mk_trade,
      Trade.calculate_pnl, calculate_position_size, get_equity]
  exact hcontra hle
